import Mathlib

/-!
Verification of the Limonade backend simulation engine (game.py).

The embedding below translates the accounting-aware game engine from
game.py into Lean. Python floats are represented as exact rationals;
the 1e-9 comparison tolerance of the source is kept explicitly, and the
demand formula's multiply-then-int steps, whose products land exactly on
integer boundaries, are modelled in exact binary64 arithmetic (the
literals 0.3, 0.6, 0.8, 1.15 as the doubles they denote, with the
product's significand rounded to 53 bits, nearest, ties to even).
Elsewhere the rational idealization is below the observable granularity:
money comparisons have 1e-9 slack in the source itself, and the demand
ratio thresholds are crossed at whole cents with margins around 1e-3.
Random draws (weather label, base demand, demand noise) are passed as
explicit oracle parameters. Python's int() truncation agrees with floor
on the non-negative quantities it is applied to, and Python's
round(x, nd) (round half to even) is modelled exactly.
-/

namespace Limonade

/- Cost constants from game.py (COSTE_LIMON etc.), as exact rationals. -/

def COSTE_LIMON : ℚ := 1/2

def COSTE_AZUCAR : ℚ := 1/10

def COSTE_VASO : ℚ := 2/25

def COSTE_PUBLICIDAD_BASE : ℚ := 5

def DIAS_TOTALES : ℕ := 7

/-- The 1e-9 tolerance used by the source in float comparisons of money. -/
def TOL : ℚ := 1/1000000000

/- INGREDIENTES_POR_VASO: units of each ingredient needed per cup. -/

def ingredientes_por_vaso_limon : ℕ := 1

def ingredientes_por_vaso_azucar : ℕ := 1

def ingredientes_por_vaso_vaso : ℕ := 1

/-- Python round-half-to-even of a rational to an integer. -/
def roundHalfEven (q : ℚ) : ℤ :=
  let f := Int.floor q
  let frac := q - f
  if frac < 1/2 then f
  else if 1/2 < frac then f + 1
  else if f % 2 = 0 then f else f + 1

/-- Python round(x, 2). -/
def round2 (q : ℚ) : ℚ := (roundHalfEven (q * 100) : ℚ) / 100

/-- Python round(x, 4). -/
def round4 (q : ℚ) : ℚ := (roundHalfEven (q * 10000) : ℚ) / 10000

/-- The weather labels produced by LemonadeGame._generar_clima. -/
inductive Clima
  | Caluroso
  | Templado
  | Frio
deriving DecidableEq

/-- One entry of estado.historial, as appended by simular_dia. -/
structure DaySummary where
  dia : ℕ
  clima : Clima
  demanda : ℕ
  vendido : ℕ
  ingresos : ℚ
  coste_ventas : ℚ
  beneficio_dia : ℚ
  caja : ℚ
deriving DecidableEq

/-- The dataclass EstadoFinanciero from game.py (message strings omitted). -/
structure EstadoFinanciero where
  dia : ℕ
  dias_totales : ℕ
  caja : ℚ
  inventario_limones : ℕ
  inventario_azucar : ℕ
  inventario_vasos : ℕ
  inventario_limonada : ℕ
  coste_inventario_limonada : ℚ
  precio_venta : ℚ
  producidas_hoy : ℕ
  ingresos_acumulados : ℚ
  coste_ventas_acumulado : ℚ
  gastos_operativos_acumulado : ℚ
  cobros_acumulados : ℚ
  pagos_acumulados : ℚ
  capital_inicial : ℚ
  beneficios_acumulados : ℚ
  deuda : ℚ
  nivel_calidad : ℕ
  historial : List DaySummary
deriving DecidableEq

/-- A LemonadeGame instance: the estado plus the transient weather pair
set by _generar_clima (self.clima, self.demanda_base). -/
structure Game where
  estado : EstadoFinanciero
  clima : Clima
  demanda_base : ℕ
deriving DecidableEq

/-- The default EstadoFinanciero of the dataclass: day 1, cash 100,
empty inventories and accumulators, price 1, capital 100. -/
def estadoInicial : EstadoFinanciero where
  dia := 1
  dias_totales := DIAS_TOTALES
  caja := 100
  inventario_limones := 0
  inventario_azucar := 0
  inventario_vasos := 0
  inventario_limonada := 0
  coste_inventario_limonada := 0
  precio_venta := 1
  producidas_hoy := 0
  ingresos_acumulados := 0
  coste_ventas_acumulado := 0
  gastos_operativos_acumulado := 0
  cobros_acumulados := 0
  pagos_acumulados := 0
  capital_inicial := 100
  beneficios_acumulados := 0
  deuda := 0
  nivel_calidad := 0
  historial := []

/-- LemonadeGame.__init__: caja is set to capital_inicial (both 100) and
an initial weather pair is drawn; the draw is passed in as an oracle. -/
def initGame (clima : Clima) (demanda_base : ℕ) : Game :=
  { estado := estadoInicial, clima := clima, demanda_base := demanda_base }

/-- A fixed concrete fresh game used for scenarios and witnesses. -/
def init0 : Game := initGame Clima.Templado 50

/-- LemonadeGame._precio_ingredientes_por_vaso: ingredient cost of one cup. -/
def precio_ingredientes_por_vaso : ℚ :=
  COSTE_LIMON * ingredientes_por_vaso_limon +
  COSTE_AZUCAR * ingredientes_por_vaso_azucar +
  COSTE_VASO * ingredientes_por_vaso_vaso

/-- LemonadeGame.comprar_ingredientes. Inputs are the integers the HTTP
layer passes; the method clamps them to non-negative, computes the total
cost, rejects it when the cost exceeds caja + 1e-9, and otherwise debits
caja, accumulates the payment and increments the raw inventories.
The first component is the 'ok' flag of the returned dict. -/
def comprar_ingredientes (g : Game) (limones azucar vasos : ℤ) : Bool × Game :=
  let l : ℕ := (max 0 limones).toNat
  let a : ℕ := (max 0 azucar).toNat
  let v : ℕ := (max 0 vasos).toNat
  let coste_total : ℚ := l * COSTE_LIMON + a * COSTE_AZUCAR + v * COSTE_VASO
  if coste_total > g.estado.caja + TOL then (false, g)
  else
    (true, { g with estado := { g.estado with
      caja := g.estado.caja - coste_total
      pagos_acumulados := g.estado.pagos_acumulados + coste_total
      inventario_limones := g.estado.inventario_limones + l
      inventario_azucar := g.estado.inventario_azucar + a
      inventario_vasos := g.estado.inventario_vasos + v } })

/-- LemonadeGame.fijar_precio. The argument is none when float(precio)
raises (unparseable input), which the source turns into an ok=false
result; a non-positive price is rejected; otherwise the price is stored
rounded to 2 decimals. -/
def fijar_precio (g : Game) (precio : Option ℚ) : Bool × Game :=
  match precio with
  | none => (false, g)
  | some p =>
    if p ≤ 0 then (false, g)
    else (true, { g with estado := { g.estado with precio_venta := round2 p } })

/-- LemonadeGame.producir: clamps the quantity, caps it by the inventories
(integer division by the per-cup requirement, which is 1), fails when the
capped amount is 0, and otherwise consumes ingredients, adds the produced
cups and their ingredient cost to the prepared inventory, and accumulates
producidas_hoy. -/
def producir (g : Game) (cantidad : ℤ) : Bool × Game :=
  let c : ℕ := (max 0 cantidad).toNat
  let max_posible : ℕ :=
    min (g.estado.inventario_limones / ingredientes_por_vaso_limon)
      (min (g.estado.inventario_azucar / ingredientes_por_vaso_azucar)
        (g.estado.inventario_vasos / ingredientes_por_vaso_vaso))
  let a_producir : ℕ := min c max_posible
  if a_producir = 0 then (false, g)
  else
    let coste_unitario : ℚ := precio_ingredientes_por_vaso
    let coste_total_nueva : ℚ := coste_unitario * a_producir
    (true, { g with estado := { g.estado with
      inventario_limones := g.estado.inventario_limones - a_producir * ingredientes_por_vaso_limon
      inventario_azucar := g.estado.inventario_azucar - a_producir * ingredientes_por_vaso_azucar
      inventario_vasos := g.estado.inventario_vasos - a_producir * ingredientes_por_vaso_vaso
      inventario_limonada := g.estado.inventario_limonada + a_producir
      coste_inventario_limonada := g.estado.coste_inventario_limonada + coste_total_nueva
      producidas_hoy := g.estado.producidas_hoy + a_producir } })

/-- LemonadeGame.campana_publicidad: clamps the spend to non-negative,
rejects it when it exceeds caja + 1e-9, and otherwise debits caja,
accumulates the payment and the operating expense, and raises
nivel_calidad by the integer quotient of the spend by the base cost.
Note the source never touches beneficios_acumulados here. -/
def campana_publicidad (g : Game) (gasto : ℚ) : Bool × Game :=
  let gasto' : ℚ := max 0 gasto
  if gasto' > g.estado.caja + TOL then (false, g)
  else
    let aumento : ℕ := (Int.floor (gasto' / COSTE_PUBLICIDAD_BASE)).toNat
    (true, { g with estado := { g.estado with
      caja := g.estado.caja - gasto'
      pagos_acumulados := g.estado.pagos_acumulados + gasto'
      gastos_operativos_acumulado := g.estado.gastos_operativos_acumulado + gasto'
      nivel_calidad := g.estado.nivel_calidad + aumento } })

/-- Number of significand bits of x beyond 53 (0 when x < 2^53).
Correct for x < 2^69, far above the demand products used here. -/
def excessBits (x : ℕ) : ℕ := ((List.range 16).filter (fun k => 2 ^ (53 + k) ≤ x)).length

/-- Round a non-negative integer to 53 significant bits, to nearest with
ties to even: the significand rounding step of binary64 arithmetic. -/
def round53 (x : ℕ) : ℕ :=
  let k := excessBits x
  if k = 0 then x
  else
    let q := x / 2 ^ k
    let r := x % 2 ^ k
    let half := 2 ^ (k - 1)
    let q' := if r < half then q
      else if half < r then q + 1
      else if q % 2 = 0 then q else q + 1
    q' * 2 ^ k

/-- Python's int(d * c) for a non-negative int d and a positive double
constant c = m / 2^s: d converts to double exactly (d < 2^53), the exact
product d*m / 2^s has its integer significand d*m rounded to 53 bits
(nearest, ties to even), and int() truncates the non-negative result,
which is floor, here realized as natural division by 2^s. -/
def pyMulTrunc (d m s : ℕ) : ℕ := round53 (d * m) / 2 ^ s

/- The binary64 values of the float literals of _calcular_demanda, each
certified below to be the correctly rounded double of the decimal:
  0.3  = 5404319552844595 / 2^54  (3/10  minus 0.2 ulp)
  0.6  = 5404319552844595 / 2^53  (6/10  minus 0.2 ulp)
  0.8  = 7205759403792794 / 2^53  (8/10  plus  0.4 ulp)
  1.15 = 5179139571476070 / 2^52  (23/20 minus 0.4 ulp) -/

lemma double_03_certificate : 3 * 2 ^ 54 = 10 * 5404319552844595 + 2 := by decide

lemma double_06_certificate : 6 * 2 ^ 53 = 10 * 5404319552844595 + 2 := by decide

lemma double_08_certificate : 8 * 2 ^ 53 + 4 = 10 * 7205759403792794 := by decide

lemma double_115_certificate : 115 * 2 ^ 52 = 100 * 5179139571476070 + 40 := by decide

/-- LemonadeGame._calcular_demanda. The noise argument is the
random.randint(-5, 5) draw. The four demand multiplications run in
binary64 (pyMulTrunc with the exact double constants above), because
their products can land on integer boundaries where the float deficit
of the constant is observable (int(100 * 1.15) = 114). The ratio
comparisons stay in exact rationals: their thresholds are crossed at
whole cents with margins around 1e-3, far above double rounding error. -/
def calcular_demanda (g : Game) (noise : ℤ) : ℕ :=
  let precio := g.estado.precio_venta
  let demanda0 : ℕ := g.demanda_base
  let coste_base : ℚ := precio_ingredientes_por_vaso
  let ratio : ℚ := precio / (coste_base + 1/1000000)
  let demanda1 : ℤ :=
    if ratio > 3 then (pyMulTrunc demanda0 5404319552844595 54 : ℤ)
    else if ratio > 2 then (pyMulTrunc demanda0 5404319552844595 53 : ℤ)
    else if ratio > 3/2 then (pyMulTrunc demanda0 7205759403792794 53 : ℤ)
    else if ratio < 4/5 then (pyMulTrunc demanda0 5179139571476070 52 : ℤ)
    else (demanda0 : ℤ)
  let demanda2 : ℤ := demanda1 + (g.estado.nivel_calidad : ℤ) * 8
  (max 0 (demanda2 + noise)).toNat

/-- LemonadeGame.simular_dia, ignoring the lock (the lock-aware variant
is simular_dia_locked below). The noise and the next weather draw are
oracle parameters. Returns ((ok, resumen), new game). -/
def simular_dia (g : Game) (gastar_publicidad : ℚ) (noise : ℤ)
    (next_clima : Clima) (next_base : ℕ) : (Bool × DaySummary) × Game :=
  let g1 := if gastar_publicidad > 0 then (campana_publicidad g gastar_publicidad).2 else g
  let e := g1.estado
  let demanda : ℕ := calcular_demanda g1 noise
  let unidades_vendidas : ℕ := min e.inventario_limonada demanda
  let ingresos : ℚ := unidades_vendidas * e.precio_venta
  let coste_ventas : ℚ :=
    if 0 < e.inventario_limonada then
      e.coste_inventario_limonada / e.inventario_limonada * unidades_vendidas
    else 0
  let gasto_operativo_hoy : ℚ := 0
  let beneficio_dia : ℚ := ingresos - coste_ventas - gasto_operativo_hoy
  let caja' : ℚ := e.caja + ingresos
  let resumen : DaySummary :=
    { dia := e.dia, clima := g1.clima, demanda := demanda,
      vendido := unidades_vendidas, ingresos := round2 ingresos,
      coste_ventas := round2 coste_ventas,
      beneficio_dia := round2 beneficio_dia, caja := round2 caja' }
  let e' : EstadoFinanciero := { e with
    inventario_limonada := e.inventario_limonada - unidades_vendidas
    coste_inventario_limonada := max 0 (round4 (e.coste_inventario_limonada - coste_ventas))
    caja := caja'
    cobros_acumulados := e.cobros_acumulados + ingresos
    ingresos_acumulados := e.ingresos_acumulados + ingresos
    coste_ventas_acumulado := e.coste_ventas_acumulado + coste_ventas
    gastos_operativos_acumulado := e.gastos_operativos_acumulado + gasto_operativo_hoy
    beneficios_acumulados := e.beneficios_acumulados + beneficio_dia
    historial := e.historial ++ [resumen]
    dia := e.dia + 1
    producidas_hoy := 0 }
  let siguiente : Clima × ℕ :=
    if e'.dia ≤ e'.dias_totales then (next_clima, next_base)
    else (g1.clima, g1.demanda_base)
  ((true, resumen), { estado := e', clima := siguiente.1, demanda_base := siguiente.2 })

/-- LemonadeGame.calcular_balance, with every rounding of the source. -/
structure Balance where
  caja : ℚ
  existencias_ingredientes : ℚ
  existencias_limonada : ℚ
  inmovilizado : ℚ
  total_activo : ℚ
  deuda : ℚ
  capital_inicial : ℚ
  beneficios_acumulados : ℚ
  total_pasivo_patrimonio : ℚ
deriving DecidableEq

/-- LemonadeGame.calcular_balance: assets are cash, ingredient stock at
cost, prepared lemonade at accumulated cost, and a zero placeholder;
liabilities and equity are debt, initial capital and accumulated profit. -/
def calcular_balance (g : Game) : Balance :=
  let valor_limones : ℚ := g.estado.inventario_limones * COSTE_LIMON
  let valor_azucar : ℚ := g.estado.inventario_azucar * COSTE_AZUCAR
  let valor_vasos : ℚ := g.estado.inventario_vasos * COSTE_VASO
  let valor_ingredientes := valor_limones + valor_azucar + valor_vasos
  let valor_limonada_preparada := round2 g.estado.coste_inventario_limonada
  let caja_r := round2 g.estado.caja
  let ing_r := round2 valor_ingredientes
  let deuda_r := round2 g.estado.deuda
  let cap_r := round2 g.estado.capital_inicial
  let ben_r := round2 g.estado.beneficios_acumulados
  { caja := caja_r
    existencias_ingredientes := ing_r
    existencias_limonada := valor_limonada_preparada
    inmovilizado := 0
    total_activo := round2 (caja_r + ing_r + valor_limonada_preparada + 0)
    deuda := deuda_r
    capital_inicial := cap_r
    beneficios_acumulados := ben_r
    total_pasivo_patrimonio := round2 (deuda_r + cap_r + ben_r) }

/-- LemonadeGame.calcular_cuenta_resultados. -/
structure CuentaResultados where
  ingresos : ℚ
  coste_ventas : ℚ
  gastos_operativos : ℚ
  beneficio : ℚ
deriving DecidableEq

/-- LemonadeGame.calcular_cuenta_resultados: the income statement is
recomputed from the accumulators; its beneficio line is the rounded
difference ingresos - coste_ventas - gastos. -/
def calcular_cuenta_resultados (g : Game) : CuentaResultados :=
  let ingresos := round2 g.estado.ingresos_acumulados
  let coste_ventas := round2 g.estado.coste_ventas_acumulado
  let gastos := round2 g.estado.gastos_operativos_acumulado
  { ingresos := ingresos, coste_ventas := coste_ventas,
    gastos_operativos := gastos,
    beneficio := round2 (ingresos - coste_ventas - gastos) }

/-- A LemonadeGame together with its threading.Lock. The lock of the
source is not reentrant: acquiring it while it is already held (by the
same thread included) blocks forever, which this model renders as none. -/
structure LockedGame where
  lockHeld : Bool
  game : Game
deriving DecidableEq

/-- campana_publicidad as executed through its with self.lock block:
it blocks (none) if the lock is already held, otherwise runs the body
and releases the lock on exit. -/
def campana_publicidad_locked (s : LockedGame) (gasto : ℚ) :
    Option (Bool × LockedGame) :=
  if s.lockHeld then none
  else
    let r := campana_publicidad s.game gasto
    some (r.1, { lockHeld := false, game := r.2 })

/-- simular_dia as executed through its with self.lock block. The body
runs while the lock is held; when gastar_publicidad > 0 its first step
is a call to the public campana_publicidad, which tries to acquire the
same non-reentrant lock again. The remainder of the body is the
simular_dia arithmetic with no further advertising (simular_dia _ 0). -/
def simular_dia_locked (s : LockedGame) (gastar_publicidad : ℚ) (noise : ℤ)
    (next_clima : Clima) (next_base : ℕ) :
    Option ((Bool × DaySummary) × LockedGame) :=
  if s.lockHeld then none
  else
    let held : LockedGame := { lockHeld := true, game := s.game }
    if gastar_publicidad > 0 then
      match campana_publicidad_locked held gastar_publicidad with
      | none => none
      | some (_, s1) =>
        let r := simular_dia s1.game 0 noise next_clima next_base
        some (r.1, { lockHeld := false, game := r.2 })
    else
      let r := simular_dia s.game 0 noise next_clima next_base
      some (r.1, { lockHeld := false, game := r.2 })

/-- The player-visible engine operations, with every random draw made
an explicit oracle argument of the operation. -/
inductive Op
  | comprar (limones azucar vasos : ℤ)
  | fijar (precio : Option ℚ)
  | producir (cantidad : ℤ)
  | campana (gasto : ℚ)
  | simular (gastar_publicidad : ℚ) (noise : ℤ) (next_clima : Clima) (next_base : ℕ)

/-- One engine operation on the running game. A simulate request with a
positive advertising spend never completes (simular_dia re-acquires the
non-reentrant lock it already holds), so it yields no successor state. -/
def execOp (g : Game) : Op → Option Game
  | Op.comprar l a v => some (comprar_ingredientes g l a v).2
  | Op.fijar p => some (fijar_precio g p).2
  | Op.producir c => some (producir g c).2
  | Op.campana gasto => some (campana_publicidad g gasto).2
  | Op.simular gp noise nc nb =>
    if 0 < gp then none
    else some (simular_dia g gp noise nc nb).2

/-- Run a sequence of engine operations. -/
def execOps (g : Game) : List Op → Option Game
  | [] => some g
  | op :: ops =>
    match execOp g op with
    | none => none
    | some g' => execOps g' ops

/-- States reachable from a freshly constructed game by engine operations. -/
def Reachable (g : Game) : Prop :=
  ∃ (c : Clima) (b : ℕ) (ops : List Op), execOps (initGame c b) ops = some g

/- Helper lemmas about the rounding model. -/

lemma roundHalfEven_intCast (z : ℤ) : roundHalfEven (z : ℚ) = z := by
  unfold roundHalfEven
  rw [Int.floor_intCast]
  norm_num

lemma roundHalfEven_nonneg {q : ℚ} (h : 0 ≤ q) : 0 ≤ roundHalfEven q := by
  unfold roundHalfEven
  have hf : (0:ℤ) ≤ Int.floor q := Int.floor_nonneg.mpr h
  dsimp only
  split_ifs <;> omega

lemma round2_eval {q : ℚ} (z : ℤ) (h : q * 100 = (z:ℚ)) : round2 q = (z:ℚ)/100 := by
  unfold round2
  rw [h, roundHalfEven_intCast]

lemma round2_nonneg {q : ℚ} (h : 0 ≤ q) : 0 ≤ round2 q := by
  unfold round2
  have h2 : (0:ℤ) ≤ roundHalfEven (q * 100) := roundHalfEven_nonneg (by positivity)
  have : (0:ℚ) ≤ (roundHalfEven (q * 100) : ℚ) := by exact_mod_cast h2
  positivity

/-- The state of a fresh game right after a standalone advertising
campaign of 5 euros (one unit of visibility). -/
def estadoTrasPublicidad : Game := (campana_publicidad init0 5).2

lemma estadoTrasPublicidad_eq :
    estadoTrasPublicidad =
      { estado := { estadoInicial with
          caja := 95
          pagos_acumulados := 5
          gastos_operativos_acumulado := 5
          nivel_calidad := 1 }
        clima := Clima.Templado
        demanda_base := 50 } := by
  unfold estadoTrasPublicidad campana_publicidad init0 initGame
  rw [if_neg (by norm_num [TOL, estadoInicial])]
  have hmax : max (0:ℚ) 5 = 5 := by norm_num
  have hfloor : Int.floor ((max (0:ℚ) 5) / COSTE_PUBLICIDAD_BASE) = 1 := by
    rw [hmax]
    norm_num [COSTE_PUBLICIDAD_BASE]
  simp [Game.mk.injEq, EstadoFinanciero.mk.injEq, hmax, hfloor, estadoInicial]
  constructor
  · norm_num
  · rw [show ((5:ℚ)/COSTE_PUBLICIDAD_BASE) = 1 by norm_num [COSTE_PUBLICIDAD_BASE]]
    simp

lemma round2_eq_self {q : ℚ} (z : ℤ) (h : q = (z:ℚ)/100) : round2 q = q := by
  subst h
  exact round2_eval z (by field_simp)

/-- C2: refuted claim that simular_dia with a positive advertising spend
terminates and returns a day summary. The source holds the non-reentrant
threading.Lock and then calls campana_publicidad, which tries to acquire
the same lock, so the call blocks forever (modelled as none). With a
zero spend, or calling campana_publicidad on its own, the day/campaign
completes, so the failure is precisely the re-entrant acquisition. -/
theorem simular_dia_publicidad_deadlock :
    simular_dia_locked { lockHeld := false, game := init0 } 5 0 Clima.Templado 50 = none ∧
    (simular_dia_locked { lockHeld := false, game := init0 } 0 0 Clima.Templado 50).isSome = true ∧
    (campana_publicidad_locked { lockHeld := false, game := init0 } 5).isSome = true := by
  refine ⟨?_, ?_, ?_⟩ <;>
    norm_num [simular_dia_locked, campana_publicidad_locked]

/-- C3: the cumulative-profit identity fails on the code. After a single
advertising campaign of 5 euros on a fresh game, the operation reports
ok, gastos_operativos_acumulado has grown by 5, but beneficios_acumulados
is untouched, so beneficios != ingresos - coste_ventas - gastos (0 vs -5);
the income-statement view itself computes beneficio = -5. -/
theorem beneficios_identity_bug :
    (campana_publicidad init0 5).1 = true ∧
    estadoTrasPublicidad.estado.beneficios_acumulados = 0 ∧
    estadoTrasPublicidad.estado.ingresos_acumulados -
        estadoTrasPublicidad.estado.coste_ventas_acumulado -
        estadoTrasPublicidad.estado.gastos_operativos_acumulado = -5 ∧
    (calcular_cuenta_resultados estadoTrasPublicidad).beneficio = -5 := by
  have r0 : round2 (0:ℚ) = 0 := round2_eq_self 0 (by norm_num)
  have r5 : round2 (5:ℚ) = 5 := round2_eq_self 500 (by norm_num)
  have rm5 : round2 (-5:ℚ) = -5 := round2_eq_self (-500) (by norm_num)
  refine ⟨?_, ?_, ?_, ?_⟩
  · unfold campana_publicidad init0 initGame
    rw [if_neg (by norm_num [TOL, estadoInicial])]
  · rw [estadoTrasPublicidad_eq]
    simp [estadoInicial]
  · rw [estadoTrasPublicidad_eq]
    norm_num [estadoInicial]
  · rw [estadoTrasPublicidad_eq]
    unfold calcular_cuenta_resultados
    dsimp only [estadoInicial]
    rw [r0, r5, show (0:ℚ) - 0 - 5 = -5 by norm_num, rm5]

/-- C4: the balance-sheet identity fails on the code. After a single
advertising campaign of 5 euros on a fresh game, assets (cash 95, no
stock) total 95 while liabilities plus equity (debt 0, capital 100,
accumulated profit 0) total 100, a 5-euro gap far beyond any rounding
tolerance. -/
theorem balance_identity_bug :
    (calcular_balance estadoTrasPublicidad).total_activo = 95 ∧
    (calcular_balance estadoTrasPublicidad).total_pasivo_patrimonio = 100 := by
  have r0 : round2 (0:ℚ) = 0 := round2_eq_self 0 (by norm_num)
  have r95 : round2 (95:ℚ) = 95 := round2_eq_self 9500 (by norm_num)
  have r100 : round2 (100:ℚ) = 100 := round2_eq_self 10000 (by norm_num)
  rw [estadoTrasPublicidad_eq]
  unfold calcular_balance
  dsimp only [estadoInicial]
  norm_num [r0, r95, r100]

/-- C5 counterexample: cash is not always non-negative. The 1e-9
comparison tolerance accepts an advertising spend of 100 + 5e-10 euros
from a fresh game with cash 100, leaving cash strictly negative. -/
theorem caja_no_negativa_counterexample :
    (campana_publicidad init0 (100 + 1/2000000000)).1 = true ∧
    (campana_publicidad init0 (100 + 1/2000000000)).2.estado.caja < 0 := by
  unfold campana_publicidad init0 initGame
  rw [if_neg (by norm_num [TOL, estadoInicial])]
  refine ⟨rfl, ?_⟩
  norm_num [estadoInicial]

/-- The inductive invariant behind the amended C5: cash never drops below
-1e-9, and the sale price is always a non-negative whole number of cents
(the latter is also what makes the demand formula well behaved, C9). -/
def Inv (g : Game) : Prop :=
  -TOL ≤ g.estado.caja ∧ ∃ k : ℕ, g.estado.precio_venta = (k:ℚ)/100

lemma inv_initGame (c : Clima) (b : ℕ) : Inv (initGame c b) := by
  refine ⟨by norm_num [initGame, estadoInicial, TOL], 100, ?_⟩
  norm_num [initGame, estadoInicial]

lemma inv_comprar {g : Game} (h : Inv g) (l a v : ℤ) :
    Inv (comprar_ingredientes g l a v).2 := by
  obtain ⟨h1, h2⟩ := h
  unfold comprar_ingredientes
  dsimp only
  split_ifs with hc
  · exact ⟨h1, h2⟩
  · push_neg at hc
    exact ⟨by dsimp; linarith, h2⟩

lemma inv_fijar {g : Game} (h : Inv g) (p : Option ℚ) :
    Inv (fijar_precio g p).2 := by
  obtain ⟨h1, h2⟩ := h
  match p with
  | none => exact ⟨h1, h2⟩
  | some q =>
    unfold fijar_precio
    dsimp only
    split_ifs with hq
    · exact ⟨h1, h2⟩
    · push_neg at hq
      refine ⟨h1, (roundHalfEven (q * 100)).toNat, ?_⟩
      have hz : (0:ℤ) ≤ roundHalfEven (q * 100) :=
        roundHalfEven_nonneg (by positivity)
      have hcast : (((roundHalfEven (q * 100)).toNat : ℕ) : ℚ)
          = ((roundHalfEven (q * 100) : ℤ) : ℚ) := by
        exact_mod_cast Int.toNat_of_nonneg hz
      dsimp
      unfold round2
      rw [hcast]

lemma inv_producir {g : Game} (h : Inv g) (c : ℤ) :
    Inv (producir g c).2 := by
  obtain ⟨h1, h2⟩ := h
  unfold producir
  dsimp only
  split_ifs with hc
  · exact ⟨h1, h2⟩
  · exact ⟨h1, h2⟩

lemma inv_campana {g : Game} (h : Inv g) (gasto : ℚ) :
    Inv (campana_publicidad g gasto).2 := by
  obtain ⟨h1, h2⟩ := h
  unfold campana_publicidad
  dsimp only
  split_ifs with hc
  · exact ⟨h1, h2⟩
  · push_neg at hc
    exact ⟨by dsimp; linarith, h2⟩

lemma simular_dia_caja (g : Game) (gp : ℚ) (noise : ℤ) (nc : Clima) (nb : ℕ) :
    (simular_dia g gp noise nc nb).2.estado.caja =
      (if gp > 0 then (campana_publicidad g gp).2 else g).estado.caja +
        (↑(min (if gp > 0 then (campana_publicidad g gp).2 else g).estado.inventario_limonada
            (calcular_demanda (if gp > 0 then (campana_publicidad g gp).2 else g) noise)) *
          (if gp > 0 then (campana_publicidad g gp).2 else g).estado.precio_venta : ℚ) := rfl

lemma simular_dia_precio (g : Game) (gp : ℚ) (noise : ℤ) (nc : Clima) (nb : ℕ) :
    (simular_dia g gp noise nc nb).2.estado.precio_venta =
      (if gp > 0 then (campana_publicidad g gp).2 else g).estado.precio_venta := rfl

lemma inv_simular {g : Game} (h : Inv g) (gp : ℚ) (noise : ℤ)
    (nc : Clima) (nb : ℕ) : Inv (simular_dia g gp noise nc nb).2 := by
  have h1 : Inv (if gp > 0 then (campana_publicidad g gp).2 else g) := by
    split_ifs
    · exact inv_campana h gp
    · exact h
  obtain ⟨hc, k, hk⟩ := h1
  refine ⟨?_, k, by rw [simular_dia_precio]; exact hk⟩
  rw [simular_dia_caja]
  have hp : (0:ℚ) ≤
      (if gp > 0 then (campana_publicidad g gp).2 else g).estado.precio_venta := by
    rw [hk]; positivity
  have : (0:ℚ) ≤
      (↑(min (if gp > 0 then (campana_publicidad g gp).2 else g).estado.inventario_limonada
          (calcular_demanda (if gp > 0 then (campana_publicidad g gp).2 else g) noise)) *
        (if gp > 0 then (campana_publicidad g gp).2 else g).estado.precio_venta : ℚ) :=
    mul_nonneg (by positivity) hp
  linarith

lemma inv_execOp {g g' : Game} {op : Op} (h : Inv g) (he : execOp g op = some g') :
    Inv g' := by
  cases op with
  | comprar l a v =>
    simp only [execOp, Option.some.injEq] at he
    rw [← he]; exact inv_comprar h l a v
  | fijar p =>
    simp only [execOp, Option.some.injEq] at he
    rw [← he]; exact inv_fijar h p
  | producir c =>
    simp only [execOp, Option.some.injEq] at he
    rw [← he]; exact inv_producir h c
  | campana gasto =>
    simp only [execOp, Option.some.injEq] at he
    rw [← he]; exact inv_campana h gasto
  | simular gp noise nc nb =>
    simp only [execOp] at he
    split_ifs at he
    simp only [Option.some.injEq] at he
    rw [← he]; exact inv_simular h gp noise nc nb

lemma inv_execOps {g g' : Game} {ops : List Op} (h : Inv g)
    (he : execOps g ops = some g') : Inv g' := by
  induction ops generalizing g with
  | nil =>
    simp only [execOps, Option.some.injEq] at he
    rwa [← he]
  | cons op ops ih =>
    rw [execOps] at he
    cases hop : execOp g op with
    | none => rw [hop] at he; exact absurd he (by simp)
    | some g1 =>
      rw [hop] at he
      exact ih (inv_execOp h hop) he

lemma inv_reachable {g : Game} (h : Reachable g) : Inv g := by
  obtain ⟨c, b, ops, he⟩ := h
  exact inv_execOps (inv_initGame c b) he

/-- C5 amended: after every completed engine operation from a fresh game,
cash is at least -1e-9 (not 0: the float-comparison tolerance lets a
spend exceed cash by up to 1e-9, see the counterexample); any purchase or
advertising spend strictly exceeding cash + 1e-9 is rejected before any
mutation, never clamped or partially applied. -/
theorem caja_cota_amended :
    (∀ g : Game, Reachable g → -TOL ≤ g.estado.caja) ∧
    (∀ (g : Game) (l a v : ℤ),
      g.estado.caja + TOL <
        ((max 0 l).toNat * COSTE_LIMON + (max 0 a).toNat * COSTE_AZUCAR +
          (max 0 v).toNat * COSTE_VASO) →
      comprar_ingredientes g l a v = (false, g)) ∧
    (∀ (g : Game) (gasto : ℚ), g.estado.caja + TOL < max 0 gasto →
      campana_publicidad g gasto = (false, g)) := by
  refine ⟨fun g h => (inv_reachable h).1, ?_, ?_⟩
  · intro g l a v h
    unfold comprar_ingredientes
    rw [if_pos h]
  · intro g gasto h
    unfold campana_publicidad
    rw [if_pos h]

/-- Witness for the amended C5: the state reached by the 5-euro campaign
satisfies the cash bound, and over-budget spends are rejected unchanged. -/
theorem caja_cota_amended_witness :
    -TOL ≤ estadoTrasPublicidad.estado.caja ∧
    comprar_ingredientes init0 1000 0 0 = (false, init0) ∧
    campana_publicidad init0 200 = (false, init0) := by
  refine ⟨caja_cota_amended.1 estadoTrasPublicidad
      ⟨Clima.Templado, 50, [Op.campana 5], rfl⟩,
    caja_cota_amended.2.1 init0 1000 0 0 (by
      have h1000 : Int.toNat 1000 = (1000:ℕ) := rfl
      norm_num [init0, initGame, estadoInicial, TOL, COSTE_LIMON, COSTE_AZUCAR,
        COSTE_VASO, h1000]),
    caja_cota_amended.2.2 init0 200 (by
      norm_num [init0, initGame, estadoInicial, TOL])⟩

/-- The clamped total cost of a purchase request, as comprar_ingredientes
computes it before the funds check. -/
def coste_compra (limones azucar vasos : ℤ) : ℚ :=
  ((max 0 limones).toNat : ℚ) * COSTE_LIMON + ((max 0 azucar).toNat : ℚ) * COSTE_AZUCAR +
    ((max 0 vasos).toNat : ℚ) * COSTE_VASO

lemma comprar_ingredientes_eq (g : Game) (l a v : ℤ) :
    comprar_ingredientes g l a v =
      if g.estado.caja + TOL < coste_compra l a v then (false, g)
      else
        (true, { g with estado := { g.estado with
          caja := g.estado.caja - coste_compra l a v
          pagos_acumulados := g.estado.pagos_acumulados + coste_compra l a v
          inventario_limones := g.estado.inventario_limones + (max 0 l).toNat
          inventario_azucar := g.estado.inventario_azucar + (max 0 a).toNat
          inventario_vasos := g.estado.inventario_vasos + (max 0 v).toNat } }) := rfl

/-- C6: functional correctness of comprar_ingredientes. A request whose
clamped total cost strictly exceeds caja + 1e-9 is rejected with ok=false
and an unchanged state; otherwise ok=true, caja drops by exactly the
cost, the cash-payments accumulator grows by it, and each raw inventory
grows by the clamped amount. On a fresh game (caja=100), buying 10 of
each costs 6.8 and leaves caja at 93.2 with ok=true. -/
theorem comprar_ingredientes_spec :
    (∀ (g : Game) (l a v : ℤ), g.estado.caja + TOL < coste_compra l a v →
      comprar_ingredientes g l a v = (false, g)) ∧
    (∀ (g : Game) (l a v : ℤ), coste_compra l a v ≤ g.estado.caja + TOL →
      (comprar_ingredientes g l a v).1 = true ∧
      (comprar_ingredientes g l a v).2.estado.caja = g.estado.caja - coste_compra l a v ∧
      (comprar_ingredientes g l a v).2.estado.pagos_acumulados
        = g.estado.pagos_acumulados + coste_compra l a v ∧
      (comprar_ingredientes g l a v).2.estado.inventario_limones
        = g.estado.inventario_limones + (max 0 l).toNat ∧
      (comprar_ingredientes g l a v).2.estado.inventario_azucar
        = g.estado.inventario_azucar + (max 0 a).toNat ∧
      (comprar_ingredientes g l a v).2.estado.inventario_vasos
        = g.estado.inventario_vasos + (max 0 v).toNat) ∧
    (coste_compra 10 10 10 = 6.8 ∧
      (comprar_ingredientes init0 10 10 10).1 = true ∧
      (comprar_ingredientes init0 10 10 10).2.estado.caja = 93.2) := by
  have h10 : Int.toNat 10 = (10:ℕ) := rfl
  have hcoste : coste_compra 10 10 10 = 6.8 := by
    norm_num [coste_compra, COSTE_LIMON, COSTE_AZUCAR, COSTE_VASO, h10]
  refine ⟨?_, ?_, hcoste, ?_, ?_⟩
  · intro g l a v h
    rw [comprar_ingredientes_eq, if_pos h]
  · intro g l a v h
    rw [comprar_ingredientes_eq, if_neg (not_lt.mpr h)]
    exact ⟨rfl, rfl, rfl, rfl, rfl, rfl⟩
  · rw [comprar_ingredientes_eq, if_neg (by
      rw [hcoste]
      norm_num [init0, initGame, estadoInicial, TOL])]
  · rw [comprar_ingredientes_eq, if_neg (by
      rw [hcoste]
      norm_num [init0, initGame, estadoInicial, TOL])]
    rw [hcoste]
    norm_num [init0, initGame, estadoInicial]

/-- Witness for C6: both branches applied at concrete inputs. -/
theorem comprar_ingredientes_spec_witness :
    comprar_ingredientes init0 300 0 0 = (false, init0) ∧
    (comprar_ingredientes init0 10 10 10).2.estado.caja
      = init0.estado.caja - coste_compra 10 10 10 := by
  have h300 : Int.toNat 300 = (300:ℕ) := rfl
  refine ⟨comprar_ingredientes_spec.1 init0 300 0 0 (by
      norm_num [coste_compra, COSTE_LIMON, COSTE_AZUCAR, COSTE_VASO, h300,
        init0, initGame, estadoInicial, TOL]),
    (comprar_ingredientes_spec.2.1 init0 10 10 10 (by
      have h10 : Int.toNat 10 = (10:ℕ) := rfl
      norm_num [coste_compra, COSTE_LIMON, COSTE_AZUCAR, COSTE_VASO, h10,
        init0, initGame, estadoInicial, TOL])).2.1⟩

/-- The production cap of producir: integer division of each raw
inventory by its per-cup requirement, then the minimum. -/
def max_posible (g : Game) : ℕ :=
  min (g.estado.inventario_limones / ingredientes_por_vaso_limon)
    (min (g.estado.inventario_azucar / ingredientes_por_vaso_azucar)
      (g.estado.inventario_vasos / ingredientes_por_vaso_vaso))

/-- The amount producir actually produces: the clamped request capped by
max_posible. -/
def a_producir (g : Game) (cantidad : ℤ) : ℕ :=
  min (max 0 cantidad).toNat (max_posible g)

lemma producir_eq (g : Game) (c : ℤ) :
    producir g c =
      if a_producir g c = 0 then (false, g)
      else (true, { g with estado := { g.estado with
        inventario_limones :=
          g.estado.inventario_limones - a_producir g c * ingredientes_por_vaso_limon
        inventario_azucar :=
          g.estado.inventario_azucar - a_producir g c * ingredientes_por_vaso_azucar
        inventario_vasos :=
          g.estado.inventario_vasos - a_producir g c * ingredientes_por_vaso_vaso
        inventario_limonada := g.estado.inventario_limonada + a_producir g c
        coste_inventario_limonada := g.estado.coste_inventario_limonada +
          precio_ingredientes_por_vaso * a_producir g c
        producidas_hoy := g.estado.producidas_hoy + a_producir g c } }) := rfl

/-- The fresh game after buying 10 lemons, 10 sugar, 10 cups. -/
def estadoTrasCompra : Game := (comprar_ingredientes init0 10 10 10).2

lemma estadoTrasCompra_eq :
    estadoTrasCompra =
      { estado := { estadoInicial with
          caja := 93.2
          pagos_acumulados := 6.8
          inventario_limones := 10
          inventario_azucar := 10
          inventario_vasos := 10 }
        clima := Clima.Templado
        demanda_base := 50 } := by
  have h10 : Int.toNat 10 = (10:ℕ) := rfl
  have hcoste : coste_compra 10 10 10 = 6.8 := comprar_ingredientes_spec.2.2.1
  unfold estadoTrasCompra
  rw [comprar_ingredientes_eq, if_neg (by
    rw [hcoste]
    norm_num [init0, initGame, estadoInicial, TOL])]
  simp [Game.mk.injEq, EstadoFinanciero.mk.injEq, init0, initGame, estadoInicial,
    hcoste, h10]
  norm_num

/-- The game above after producing 5 cups. -/
def estadoTrasProducir5 : Game := (producir estadoTrasCompra 5).2

lemma estadoTrasProducir5_eq :
    estadoTrasProducir5 =
      { estado := { estadoInicial with
          caja := 93.2
          pagos_acumulados := 6.8
          inventario_limones := 5
          inventario_azucar := 5
          inventario_vasos := 5
          inventario_limonada := 5
          coste_inventario_limonada := 3.4
          producidas_hoy := 5 }
        clima := Clima.Templado
        demanda_base := 50 } := by
  unfold estadoTrasProducir5
  rw [estadoTrasCompra_eq, producir_eq, if_neg (by decide)]
  simp [Game.mk.injEq, EstadoFinanciero.mk.injEq, estadoInicial,
    a_producir, max_posible, ingredientes_por_vaso_limon,
    ingredientes_por_vaso_azucar, ingredientes_por_vaso_vaso]
  norm_num [precio_ingredientes_por_vaso, COSTE_LIMON, COSTE_AZUCAR, COSTE_VASO,
    ingredientes_por_vaso_limon, ingredientes_por_vaso_azucar, ingredientes_por_vaso_vaso]

/-- C7: functional correctness of producir. The produced amount is the
clamped request capped by the inventory minimum; a zero producible
amount fails with ok=false and an unchanged state; otherwise each raw
inventory drops by the produced amount, the prepared inventory and its
cost (0.68 per cup, the sum of the three unit costs) grow by it, and
producidas_hoy accumulates. Producing 5 with 10 of each ingredient gives
preparedInventory=5 at cost 3.4; producing 100 with 5 of each left
produces exactly 5. -/
theorem producir_spec :
    (∀ (g : Game) (c : ℤ), a_producir g c = 0 → producir g c = (false, g)) ∧
    (∀ (g : Game) (c : ℤ), a_producir g c ≠ 0 →
      (producir g c).1 = true ∧
      (producir g c).2.estado.inventario_limones
        = g.estado.inventario_limones - a_producir g c * ingredientes_por_vaso_limon ∧
      (producir g c).2.estado.inventario_azucar
        = g.estado.inventario_azucar - a_producir g c * ingredientes_por_vaso_azucar ∧
      (producir g c).2.estado.inventario_vasos
        = g.estado.inventario_vasos - a_producir g c * ingredientes_por_vaso_vaso ∧
      (producir g c).2.estado.inventario_limonada
        = g.estado.inventario_limonada + a_producir g c ∧
      (producir g c).2.estado.coste_inventario_limonada
        = g.estado.coste_inventario_limonada + precio_ingredientes_por_vaso * a_producir g c ∧
      (producir g c).2.estado.producidas_hoy
        = g.estado.producidas_hoy + a_producir g c) ∧
    (precio_ingredientes_por_vaso = 0.68 ∧
      (producir estadoTrasCompra 5).1 = true ∧
      estadoTrasProducir5.estado.inventario_limonada = 5 ∧
      estadoTrasProducir5.estado.coste_inventario_limonada = 3.4 ∧
      a_producir estadoTrasProducir5 100 = 5 ∧
      (producir estadoTrasProducir5 100).1 = true ∧
      (producir estadoTrasProducir5 100).2.estado.inventario_limonada = 10 ∧
      (producir estadoTrasProducir5 100).2.estado.producidas_hoy = 10 ∧
      (producir estadoTrasProducir5 100).2.estado.inventario_limones = 0) := by
  refine ⟨?_, ?_, ?_, ?_, ?_, ?_, ?_, ?_, ?_, ?_, ?_⟩
  · intro g c h
    rw [producir_eq, if_pos h]
  · intro g c h
    rw [producir_eq, if_neg h]
    exact ⟨rfl, rfl, rfl, rfl, rfl, rfl, rfl⟩
  · norm_num [precio_ingredientes_por_vaso, COSTE_LIMON, COSTE_AZUCAR, COSTE_VASO,
      ingredientes_por_vaso_limon, ingredientes_por_vaso_azucar, ingredientes_por_vaso_vaso]
  · rw [estadoTrasCompra_eq, producir_eq, if_neg (by decide)]
  · rw [estadoTrasProducir5_eq]
  · rw [estadoTrasProducir5_eq]
  · rw [estadoTrasProducir5_eq]
    decide
  · rw [estadoTrasProducir5_eq, producir_eq, if_neg (by decide)]
  · rw [estadoTrasProducir5_eq, producir_eq, if_neg (by decide)]
    decide
  · rw [estadoTrasProducir5_eq, producir_eq, if_neg (by decide)]
    decide
  · rw [estadoTrasProducir5_eq, producir_eq, if_neg (by decide)]
    decide

/-- Witness for C7: both branches applied at concrete inputs (a fresh
game has no ingredients, so production fails there). -/
theorem producir_spec_witness :
    producir init0 5 = (false, init0) ∧
    (producir estadoTrasCompra 5).2.estado.inventario_limonada
      = estadoTrasCompra.estado.inventario_limonada + a_producir estadoTrasCompra 5 := by
  refine ⟨producir_spec.1 init0 5 (by decide),
    (producir_spec.2.1 estadoTrasCompra 5 (by
      rw [estadoTrasCompra_eq]; decide)).2.2.2.2.1⟩

/-- C8: fijar_precio rejects an unparseable price (modelled as none) and
any price at most 0, leaving the stored price unchanged; a positive price
is stored rounded to 2 decimals, with ok=true. set_price(0) on a fresh
game fails and changes nothing. -/
theorem fijar_precio_spec :
    (∀ g : Game, fijar_precio g none = (false, g)) ∧
    (∀ (g : Game) (p : ℚ), p ≤ 0 → fijar_precio g (some p) = (false, g)) ∧
    (∀ (g : Game) (p : ℚ), 0 < p →
      (fijar_precio g (some p)).1 = true ∧
      (fijar_precio g (some p)).2.estado.precio_venta = round2 p) ∧
    fijar_precio init0 (some 0) = (false, init0) := by
  refine ⟨fun g => rfl, ?_, ?_, ?_⟩
  · intro g p h
    unfold fijar_precio
    dsimp only
    rw [if_pos h]
  · intro g p h
    unfold fijar_precio
    dsimp only
    rw [if_neg (not_le.mpr h)]
    exact ⟨rfl, rfl⟩
  · unfold fijar_precio
    dsimp only
    rw [if_pos le_rfl]

/-- Witness for C8: a negative price is rejected unchanged; price 2.505
is accepted and stored as its 2-decimal rounding. -/
theorem fijar_precio_spec_witness :
    fijar_precio init0 (some (-1)) = (false, init0) ∧
    (fijar_precio init0 (some 2.505)).1 = true ∧
    (fijar_precio init0 (some 2.505)).2.estado.precio_venta = round2 2.505 := by
  refine ⟨fijar_precio_spec.2.1 init0 (-1) (by norm_num),
    (fijar_precio_spec.2.2.1 init0 2.505 (by norm_num)).1,
    (fijar_precio_spec.2.2.1 init0 2.505 (by norm_num)).2⟩

/- Projection lemmas for simular_dia with zero advertising spend. The
condition 0 > 0 reduces definitionally, so the pre-sales state is g
itself and each field of the result is read off the definition. -/

lemma sim0_ok (g : Game) (noise : ℤ) (nc : Clima) (nb : ℕ) :
    (simular_dia g 0 noise nc nb).1.1 = true := rfl

lemma sim0_dia (g : Game) (noise : ℤ) (nc : Clima) (nb : ℕ) :
    (simular_dia g 0 noise nc nb).2.estado.dia = g.estado.dia + 1 := rfl

lemma sim0_dias_totales (g : Game) (noise : ℤ) (nc : Clima) (nb : ℕ) :
    (simular_dia g 0 noise nc nb).2.estado.dias_totales = g.estado.dias_totales := rfl

lemma sim0_historial (g : Game) (noise : ℤ) (nc : Clima) (nb : ℕ) :
    (simular_dia g 0 noise nc nb).2.estado.historial
      = g.estado.historial ++ [(simular_dia g 0 noise nc nb).1.2] := rfl

lemma sim0_producidas (g : Game) (noise : ℤ) (nc : Clima) (nb : ℕ) :
    (simular_dia g 0 noise nc nb).2.estado.producidas_hoy = 0 := rfl

lemma sim0_caja (g : Game) (noise : ℤ) (nc : Clima) (nb : ℕ) :
    (simular_dia g 0 noise nc nb).2.estado.caja
      = g.estado.caja +
        ↑(min g.estado.inventario_limonada (calcular_demanda g noise)) *
          g.estado.precio_venta := rfl

lemma sim0_resumen_dia (g : Game) (noise : ℤ) (nc : Clima) (nb : ℕ) :
    (simular_dia g 0 noise nc nb).1.2.dia = g.estado.dia := rfl

lemma sim0_vendido (g : Game) (noise : ℤ) (nc : Clima) (nb : ℕ) :
    (simular_dia g 0 noise nc nb).1.2.vendido
      = min g.estado.inventario_limonada (calcular_demanda g noise) := rfl

lemma sim0_ingresos (g : Game) (noise : ℤ) (nc : Clima) (nb : ℕ) :
    (simular_dia g 0 noise nc nb).1.2.ingresos
      = round2 (↑(min g.estado.inventario_limonada (calcular_demanda g noise)) *
          g.estado.precio_venta) := rfl

lemma sim0_coste_ventas (g : Game) (noise : ℤ) (nc : Clima) (nb : ℕ) :
    (simular_dia g 0 noise nc nb).1.2.coste_ventas
      = round2 (if 0 < g.estado.inventario_limonada then
          g.estado.coste_inventario_limonada / ↑g.estado.inventario_limonada *
            ↑(min g.estado.inventario_limonada (calcular_demanda g noise))
        else 0) := rfl

lemma sim0_beneficio (g : Game) (noise : ℤ) (nc : Clima) (nb : ℕ) :
    (simular_dia g 0 noise nc nb).1.2.beneficio_dia
      = round2 (↑(min g.estado.inventario_limonada (calcular_demanda g noise)) *
            g.estado.precio_venta -
          (if 0 < g.estado.inventario_limonada then
            g.estado.coste_inventario_limonada / ↑g.estado.inventario_limonada *
              ↑(min g.estado.inventario_limonada (calcular_demanda g noise))
          else 0) - 0) := rfl

lemma sim0_clima (g : Game) (noise : ℤ) (nc : Clima) (nb : ℕ) :
    (simular_dia g 0 noise nc nb).2.clima
      = (if g.estado.dia + 1 ≤ g.estado.dias_totales then (nc, nb)
        else (g.clima, g.demanda_base)).1 := rfl

lemma sim0_base (g : Game) (noise : ℤ) (nc : Clima) (nb : ℕ) :
    (simular_dia g 0 noise nc nb).2.demanda_base
      = (if g.estado.dia + 1 ≤ g.estado.dias_totales then (nc, nb)
        else (g.clima, g.demanda_base)).2 := rfl

/-- C10: simulating a day with no advertising spend and an empty prepared
inventory succeeds: ok=true, the appended DaySummary records 0 sold, 0
revenue, 0 cost of goods sold and 0 day profit, cash is unchanged,
producidas_hoy is reset to 0 and the day is incremented. -/
theorem simular_dia_inventario_vacio (g : Game) (noise : ℤ) (nc : Clima) (nb : ℕ)
    (h : g.estado.inventario_limonada = 0) :
    (simular_dia g 0 noise nc nb).1.1 = true ∧
    (simular_dia g 0 noise nc nb).1.2.vendido = 0 ∧
    (simular_dia g 0 noise nc nb).1.2.ingresos = 0 ∧
    (simular_dia g 0 noise nc nb).1.2.coste_ventas = 0 ∧
    (simular_dia g 0 noise nc nb).1.2.beneficio_dia = 0 ∧
    (simular_dia g 0 noise nc nb).2.estado.historial
      = g.estado.historial ++ [(simular_dia g 0 noise nc nb).1.2] ∧
    (simular_dia g 0 noise nc nb).2.estado.caja = g.estado.caja ∧
    (simular_dia g 0 noise nc nb).2.estado.producidas_hoy = 0 ∧
    (simular_dia g 0 noise nc nb).2.estado.dia = g.estado.dia + 1 := by
  have r0 : round2 (0:ℚ) = 0 := round2_eq_self 0 (by norm_num)
  refine ⟨sim0_ok g noise nc nb, ?_, ?_, ?_, ?_, sim0_historial g noise nc nb, ?_,
    sim0_producidas g noise nc nb, sim0_dia g noise nc nb⟩
  · rw [sim0_vendido, h]
    simp
  · rw [sim0_ingresos, h]
    simp [r0]
  · rw [sim0_coste_ventas, h]
    simp [r0]
  · rw [sim0_beneficio, h]
    simp [r0]
  · rw [sim0_caja, h]
    simp

/-- Witness for C10: a fresh game has an empty prepared inventory, and
simulating its first day succeeds with an all-zero summary. -/
theorem simular_dia_inventario_vacio_witness :
    (simular_dia init0 0 0 Clima.Templado 50).1.1 = true ∧
    (simular_dia init0 0 0 Clima.Templado 50).1.2.vendido = 0 ∧
    (simular_dia init0 0 0 Clima.Templado 50).1.2.ingresos = 0 ∧
    (simular_dia init0 0 0 Clima.Templado 50).2.estado.caja = init0.estado.caja ∧
    (simular_dia init0 0 0 Clima.Templado 50).2.estado.dia = init0.estado.dia + 1 := by
  obtain ⟨h1, h2, h3, _, _, _, h7, _, h9⟩ :=
    simular_dia_inventario_vacio init0 0 Clima.Templado 50 rfl
  exact ⟨h1, h2, h3, h7, h9⟩

/-- One zero-spend day-advance with a fixed oracle (mild weather, base
demand 50, no noise), used to reach the end of the 7-day horizon. -/
def simStep (g : Game) : Game := (simular_dia g 0 0 Clima.Templado 50).2

/-- The fresh game after seven day-advances: dia = 8 > 7 = dias_totales,
so the game has ended. -/
def g8 : Game := simStep (simStep (simStep (simStep (simStep (simStep (simStep init0))))))

/-- C1 counterexample: advancing the day while the game has ended is not
a no-op. The concrete reachable state g8 (after the 7-day horizon) has
dia = 8 > 7 = dias_totales, yet simular_dia still reports ok=true,
appends an eighth DaySummary and increments dia to 9, instead of
returning the state unchanged. -/
theorem simular_dia_tras_fin_counterexample :
    Reachable g8 ∧
    g8.estado.dias_totales = 7 ∧
    g8.estado.dia = 8 ∧
    g8.estado.historial.length = 7 ∧
    (simular_dia g8 0 0 Clima.Templado 50).1.1 = true ∧
    (simular_dia g8 0 0 Clima.Templado 50).2.estado.dia = 9 ∧
    (simular_dia g8 0 0 Clima.Templado 50).2.estado.historial.length = 8 := by
  refine ⟨⟨Clima.Templado, 50,
    List.replicate 7 (Op.simular 0 0 Clima.Templado 50), rfl⟩, rfl, rfl, ?_, rfl, rfl, ?_⟩
  · rw [show g8.estado.historial
        = (simular_dia (simStep (simStep (simStep (simStep (simStep (simStep init0))))))
            0 0 Clima.Templado 50).2.estado.historial from rfl,
      sim0_historial]
    rfl
  · rw [sim0_historial]
    rfl

/-- C1 amended: for every state with dia > dias_totales, simular_dia(0)
is not a no-op but a normal day: it reports ok=true (no error), appends
a DaySummary, and increments dia; the only end-of-game behavior in the
code is that the weather pair is not regenerated once the new day is
past the horizon. -/
theorem simular_dia_tras_fin_amended (g : Game) (noise : ℤ) (nc : Clima) (nb : ℕ)
    (h : g.estado.dias_totales < g.estado.dia) :
    (simular_dia g 0 noise nc nb).1.1 = true ∧
    (simular_dia g 0 noise nc nb).2.estado.dia = g.estado.dia + 1 ∧
    (simular_dia g 0 noise nc nb).2.estado.historial
      = g.estado.historial ++ [(simular_dia g 0 noise nc nb).1.2] ∧
    (simular_dia g 0 noise nc nb).2.clima = g.clima ∧
    (simular_dia g 0 noise nc nb).2.demanda_base = g.demanda_base := by
  refine ⟨sim0_ok g noise nc nb, sim0_dia g noise nc nb, sim0_historial g noise nc nb, ?_, ?_⟩
  · rw [sim0_clima, if_neg (by omega)]
  · rw [sim0_base, if_neg (by omega)]

/-- Witness for the amended C1, at the concrete post-horizon state g8. -/
theorem simular_dia_tras_fin_amended_witness :
    (simular_dia g8 0 1 Clima.Caluroso 90).1.1 = true ∧
    (simular_dia g8 0 1 Clima.Caluroso 90).2.estado.dia = g8.estado.dia + 1 ∧
    (simular_dia g8 0 1 Clima.Caluroso 90).2.clima = g8.clima := by
  obtain ⟨h1, h2, _, h4, _⟩ :=
    simular_dia_tras_fin_amended g8 1 Clima.Caluroso 90 (by decide)
  exact ⟨h1, h2, h4⟩

lemma precio_vaso_eq : precio_ingredientes_por_vaso = 17/25 := by
  norm_num [precio_ingredientes_por_vaso, COSTE_LIMON, COSTE_AZUCAR, COSTE_VASO,
    ingredientes_por_vaso_limon, ingredientes_por_vaso_azucar, ingredientes_por_vaso_vaso]

/-- Modelled from the spec wording of the demand formula (C9): the
multipliers are the exact decimals 0.3 / 0.6 / 0.8 / 1.15 with floor
truncation at the multiplication step, and the price-sensitivity ratio
divides by the unit ingredient cost itself, without the +1e-6 division
guard the code adds to the denominator. -/
def demanda_spec (base : ℕ) (precio : ℚ) (nivel : ℕ) (noise : ℤ) : ℕ :=
  let demanda0 : ℤ := base
  let ratio : ℚ := precio / precio_ingredientes_por_vaso
  let demanda1 : ℤ :=
    if ratio > 3 then Int.floor ((demanda0 : ℚ) * (3/10))
    else if ratio > 2 then Int.floor ((demanda0 : ℚ) * (6/10))
    else if ratio > 3/2 then Int.floor ((demanda0 : ℚ) * (8/10))
    else if ratio < 4/5 then Int.floor ((demanda0 : ℚ) * (115/100))
    else demanda0
  let demanda2 : ℤ := demanda1 + (nivel : ℤ) * 8
  (max 0 (demanda2 + noise)).toNat

/- For a price that is a whole number of cents (k/100), each of the four
price-sensitivity conditions is a threshold on k, and the thresholds of
the code's guarded ratio and of the spec's plain ratio coincide. -/

lemma cond_code_3 (k : ℕ) :
    ((k:ℚ)/100 / (17/25 + 1/1000000) > 3) ↔ 205 ≤ k := by
  rw [gt_iff_lt, lt_div_iff₀ (by norm_num : (0:ℚ) < 17/25 + 1/1000000),
    lt_div_iff₀ (by norm_num : (0:ℚ) < 100),
    show (3:ℚ) * (17/25 + 1/1000000) * 100 = 2040003/10000 by norm_num,
    div_lt_iff₀ (by norm_num : (0:ℚ) < 10000),
    show ((2040003:ℚ) < ↑k * 10000) ↔ ((2040003:ℕ) < k * 10000) from by
      exact_mod_cast Iff.rfl]
  omega

lemma cond_spec_3 (k : ℕ) : ((k:ℚ)/100 / (17/25) > 3) ↔ 205 ≤ k := by
  rw [gt_iff_lt, lt_div_iff₀ (by norm_num : (0:ℚ) < 17/25),
    lt_div_iff₀ (by norm_num : (0:ℚ) < 100),
    show (3:ℚ) * (17/25) * 100 = 204 by norm_num,
    show ((204:ℚ) < ↑k) ↔ ((204:ℕ) < k) from by exact_mod_cast Iff.rfl]
  omega

lemma cond_code_2 (k : ℕ) :
    ((k:ℚ)/100 / (17/25 + 1/1000000) > 2) ↔ 137 ≤ k := by
  rw [gt_iff_lt, lt_div_iff₀ (by norm_num : (0:ℚ) < 17/25 + 1/1000000),
    lt_div_iff₀ (by norm_num : (0:ℚ) < 100),
    show (2:ℚ) * (17/25 + 1/1000000) * 100 = 1360002/10000 by norm_num,
    div_lt_iff₀ (by norm_num : (0:ℚ) < 10000),
    show ((1360002:ℚ) < ↑k * 10000) ↔ ((1360002:ℕ) < k * 10000) from by
      exact_mod_cast Iff.rfl]
  omega

lemma cond_spec_2 (k : ℕ) : ((k:ℚ)/100 / (17/25) > 2) ↔ 137 ≤ k := by
  rw [gt_iff_lt, lt_div_iff₀ (by norm_num : (0:ℚ) < 17/25),
    lt_div_iff₀ (by norm_num : (0:ℚ) < 100),
    show (2:ℚ) * (17/25) * 100 = 136 by norm_num,
    show ((136:ℚ) < ↑k) ↔ ((136:ℕ) < k) from by exact_mod_cast Iff.rfl]
  omega

lemma cond_code_15 (k : ℕ) :
    ((k:ℚ)/100 / (17/25 + 1/1000000) > 3/2) ↔ 103 ≤ k := by
  rw [gt_iff_lt, lt_div_iff₀ (by norm_num : (0:ℚ) < 17/25 + 1/1000000),
    lt_div_iff₀ (by norm_num : (0:ℚ) < 100),
    show (3:ℚ)/2 * (17/25 + 1/1000000) * 100 = 2040003/20000 by norm_num,
    div_lt_iff₀ (by norm_num : (0:ℚ) < 20000),
    show ((2040003:ℚ) < ↑k * 20000) ↔ ((2040003:ℕ) < k * 20000) from by
      exact_mod_cast Iff.rfl]
  omega

lemma cond_spec_15 (k : ℕ) : ((k:ℚ)/100 / (17/25) > 3/2) ↔ 103 ≤ k := by
  rw [gt_iff_lt, lt_div_iff₀ (by norm_num : (0:ℚ) < 17/25),
    lt_div_iff₀ (by norm_num : (0:ℚ) < 100),
    show (3:ℚ)/2 * (17/25) * 100 = 102 by norm_num,
    show ((102:ℚ) < ↑k) ↔ ((102:ℕ) < k) from by exact_mod_cast Iff.rfl]
  omega

lemma cond_code_08 (k : ℕ) :
    ((k:ℚ)/100 / (17/25 + 1/1000000) < 4/5) ↔ k ≤ 54 := by
  rw [div_lt_iff₀ (by norm_num : (0:ℚ) < 17/25 + 1/1000000),
    div_lt_iff₀ (by norm_num : (0:ℚ) < 100),
    show (4:ℚ)/5 * (17/25 + 1/1000000) * 100 = 5440008/100000 by norm_num,
    lt_div_iff₀ (by norm_num : (0:ℚ) < 100000),
    show ((↑k * 100000 : ℚ) < 5440008) ↔ ((k * 100000 : ℕ) < 5440008) from by
      exact_mod_cast Iff.rfl]
  omega

lemma cond_spec_08 (k : ℕ) : ((k:ℚ)/100 / (17/25) < 4/5) ↔ k ≤ 54 := by
  rw [div_lt_iff₀ (by norm_num : (0:ℚ) < 17/25),
    div_lt_iff₀ (by norm_num : (0:ℚ) < 100),
    show (4:ℚ)/5 * (17/25) * 100 = 272/5 by norm_num,
    lt_div_iff₀ (by norm_num : (0:ℚ) < 5),
    show ((↑k * 5 : ℚ) < 272) ↔ ((k * 5 : ℕ) < 272) from by exact_mod_cast Iff.rfl]
  omega

/- Over the weather generator's base-demand range (5..110, here checked
for all d up to 110), the binary64 multiply-then-truncate steps agree
with the exact-rational floors everywhere except int(100 * 1.15) = 114:
finite kernel checks over the integer model. -/

lemma pyMulTrunc_03_all : ∀ d : ℕ, d ≤ 110 →
    pyMulTrunc d 5404319552844595 54 = 3 * d / 10 := by decide

lemma pyMulTrunc_06_all : ∀ d : ℕ, d ≤ 110 →
    pyMulTrunc d 5404319552844595 53 = 6 * d / 10 := by decide

lemma pyMulTrunc_08_all : ∀ d : ℕ, d ≤ 110 →
    pyMulTrunc d 7205759403792794 53 = 8 * d / 10 := by decide

lemma pyMulTrunc_115_all : ∀ d : ℕ, d ≤ 110 →
    pyMulTrunc d 5179139571476070 52 = if d = 100 then 114 else 115 * d / 100 := by decide

lemma intFloor_natCast_div (m n : ℕ) :
    Int.floor ((m:ℚ)/(n:ℚ)) = ((m / n : ℕ) : ℤ) := by
  rw [← Int.natCast_floor_eq_floor (by positivity), Nat.floor_div_eq_div]

lemma pyMulTrunc_eq_03 {d : ℕ} (h : d ≤ 110) :
    (pyMulTrunc d 5404319552844595 54 : ℤ) = Int.floor (((d:ℤ):ℚ) * (3/10)) := by
  rw [pyMulTrunc_03_all d h,
    show (((d:ℤ):ℚ) * (3/10)) = ((3*d : ℕ):ℚ)/((10:ℕ):ℚ) by push_cast; ring,
    intFloor_natCast_div]

lemma pyMulTrunc_eq_06 {d : ℕ} (h : d ≤ 110) :
    (pyMulTrunc d 5404319552844595 53 : ℤ) = Int.floor (((d:ℤ):ℚ) * (6/10)) := by
  rw [pyMulTrunc_06_all d h,
    show (((d:ℤ):ℚ) * (6/10)) = ((6*d : ℕ):ℚ)/((10:ℕ):ℚ) by push_cast; ring,
    intFloor_natCast_div]

lemma pyMulTrunc_eq_08 {d : ℕ} (h : d ≤ 110) :
    (pyMulTrunc d 7205759403792794 53 : ℤ) = Int.floor (((d:ℤ):ℚ) * (8/10)) := by
  rw [pyMulTrunc_08_all d h,
    show (((d:ℤ):ℚ) * (8/10)) = ((8*d : ℕ):ℚ)/((10:ℕ):ℚ) by push_cast; ring,
    intFloor_natCast_div]

lemma pyMulTrunc_eq_115 {d : ℕ} (h : d ≤ 110) :
    (pyMulTrunc d 5179139571476070 52 : ℤ)
      = (if d = 100 then 114 else Int.floor (((d:ℤ):ℚ) * (115/100))) := by
  rw [pyMulTrunc_115_all d h]
  by_cases hd : d = 100
  · rw [if_pos hd, if_pos hd]
    norm_num
  · rw [if_neg hd, if_neg hd,
      show (((d:ℤ):ℚ) * (115/100)) = ((115*d : ℕ):ℚ)/((100:ℕ):ℚ) by push_cast; ring,
      intFloor_natCast_div]

/-- Modelled from the spec (C9 amended): the spec's demand formula with
the single correction the binary64 arithmetic forces — in the low-price
branch a base demand of 100 yields int(100 * 1.15) = 114 (the double
1.15 lies 0.4 ulp below 23/20), not 115. Within the generator's
base-demand range this is the only product the double multipliers
truncate differently from the exact decimals. -/
def demanda_spec_amended (base : ℕ) (precio : ℚ) (nivel : ℕ) (noise : ℤ) : ℕ :=
  let demanda0 : ℤ := base
  let ratio : ℚ := precio / precio_ingredientes_por_vaso
  let demanda1 : ℤ :=
    if ratio > 3 then Int.floor ((demanda0 : ℚ) * (3/10))
    else if ratio > 2 then Int.floor ((demanda0 : ℚ) * (6/10))
    else if ratio > 3/2 then Int.floor ((demanda0 : ℚ) * (8/10))
    else if ratio < 4/5 then
      (if base = 100 then 114 else Int.floor ((demanda0 : ℚ) * (115/100)))
    else demanda0
  let demanda2 : ℤ := demanda1 + (nivel : ℤ) * 8
  (max 0 (demanda2 + noise)).toNat

lemma calcular_demanda_eq_spec_amended {g : Game} (k : ℕ)
    (hk : g.estado.precio_venta = (k:ℚ)/100) (hbase : g.demanda_base ≤ 110) (noise : ℤ) :
    calcular_demanda g noise
      = demanda_spec_amended g.demanda_base g.estado.precio_venta
          g.estado.nivel_calidad noise := by
  unfold calcular_demanda demanda_spec_amended
  dsimp only
  rw [hk, precio_vaso_eq]
  simp only [cond_code_3 k, cond_code_2 k, cond_code_15 k, cond_code_08 k,
    cond_spec_3 k, cond_spec_2 k, cond_spec_15 k, cond_spec_08 k]
  rw [pyMulTrunc_eq_03 hbase, pyMulTrunc_eq_06 hbase, pyMulTrunc_eq_08 hbase,
    pyMulTrunc_eq_115 hbase]

lemma sim0_precio (g : Game) (noise : ℤ) (nc : Clima) (nb : ℕ) :
    (simular_dia g 0 noise nc nb).2.estado.precio_venta = g.estado.precio_venta := rfl

lemma sim0_nivel (g : Game) (noise : ℤ) (nc : Clima) (nb : ℕ) :
    (simular_dia g 0 noise nc nb).2.estado.nivel_calidad = g.estado.nivel_calidad := rfl

/-- The fresh game after set_price(0.54): the price is stored rounded
(round2 0.54) and nothing else changes. -/
def estadoPrecio054 : Game := (fijar_precio init0 (some 0.54)).2

lemma estadoPrecio054_eq :
    estadoPrecio054 =
      { estado := { estadoInicial with precio_venta := round2 0.54 }
        clima := Clima.Templado
        demanda_base := 50 } := by
  unfold estadoPrecio054 fijar_precio init0 initGame
  dsimp only
  rw [if_neg (by norm_num)]

/-- The state for the C9 counterexample: price 0.54 set on day 1, then
one zero-spend day simulated with the weather oracle drawing
(Caluroso, 100) for day 2: base demand 100 (inside the Hot range
60..110), whole-cent price 0.54 (ratio below 0.8), quality level 0. -/
def gBase100 : Game := (simular_dia estadoPrecio054 0 0 Clima.Caluroso 100).2

lemma gBase100_base : gBase100.demanda_base = 100 := by
  unfold gBase100
  rw [sim0_base, estadoPrecio054_eq]
  norm_num [estadoInicial, DIAS_TOTALES]

lemma gBase100_precio : gBase100.estado.precio_venta = ((54:ℕ):ℚ)/100 := by
  unfold gBase100
  rw [sim0_precio, estadoPrecio054_eq]
  simp [estadoInicial]
  rw [round2_eval 54 (by norm_num)]
  norm_num

lemma gBase100_nivel : gBase100.estado.nivel_calidad = 0 := by
  unfold gBase100
  rw [sim0_nivel, estadoPrecio054_eq]
  simp [estadoInicial]

/-- C9 counterexample: the claimed demand formula is false of the
program at a reachable state. With base demand 100 (a Hot-day draw),
price 0.54 (ratio below 0.8) and quality 0, the code computes
int(100 * 1.15) = 114 in binary64 — the double 1.15 is below 23/20 —
while the claim's formula (multiply by 1.15, truncate) gives 115, so at
noise 0 the realized demand is 114, not the claimed 115. -/
theorem calcular_demanda_counterexample :
    Reachable gBase100 ∧
    gBase100.demanda_base = 100 ∧
    gBase100.estado.precio_venta = 0.54 ∧
    gBase100.estado.nivel_calidad = 0 ∧
    calcular_demanda gBase100 0 = 114 ∧
    demanda_spec gBase100.demanda_base gBase100.estado.precio_venta
      gBase100.estado.nivel_calidad 0 = 115 := by
  have hb := gBase100_base
  have hp := gBase100_precio
  have hn := gBase100_nivel
  refine ⟨⟨Clima.Templado, 50,
    [Op.fijar (some 0.54), Op.simular 0 0 Clima.Caluroso 100], rfl⟩,
    hb, by rw [hp]; norm_num, hn, ?_, ?_⟩
  · unfold calcular_demanda
    dsimp only
    rw [hp, hb, hn, precio_vaso_eq]
    simp only [cond_code_3 54, cond_code_2 54, cond_code_15 54, cond_code_08 54]
    rw [if_neg (by norm_num), if_neg (by norm_num), if_neg (by norm_num),
      if_pos (by norm_num)]
    decide
  · unfold demanda_spec
    dsimp only
    rw [hp, hb, hn, precio_vaso_eq]
    simp only [cond_spec_3 54, cond_spec_2 54, cond_spec_15 54, cond_spec_08 54]
    rw [if_neg (by norm_num), if_neg (by norm_num), if_neg (by norm_num),
      if_pos (by norm_num),
      show ((((100:ℕ):ℤ):ℚ) * (115/100)) = ((115:ℤ):ℚ) by push_cast; norm_num,
      Int.floor_intCast]
    decide

/-- C9 amended: on every reachable state whose base demand is within the
weather generator's range (demanda_base at most 110) and every noise
draw in [-5, 5], the realized demand of _calcular_demanda equals the
claimed formula amended at exactly one point: in the low-price branch a
base demand of 100 yields int(100 * 1.15) = 114 rather than 115, the
binary64 double 1.15 being 0.4 ulp below 23/20. Every other step is as
claimed — multiplier branches with truncation at the multiplication,
plus qualityLevel * 8, plus the noise, floored at 0 into a natural
number — and for the whole-cent prices of reachable states the code's
+1e-6 ratio-denominator guard never changes a branch. -/
theorem calcular_demanda_refinement :
    ∀ g : Game, Reachable g → g.demanda_base ≤ 110 →
      ∀ noise : ℤ, -5 ≤ noise → noise ≤ 5 →
      calcular_demanda g noise
        = demanda_spec_amended g.demanda_base g.estado.precio_venta
            g.estado.nivel_calidad noise := by
  intro g hg hbase noise _ _
  obtain ⟨-, k, hk⟩ := inv_reachable hg
  exact calcular_demanda_eq_spec_amended k hk hbase noise

/-- Witness for the amended C9, at the reachable state gBase100 (base
demand 100, the very point the amendment is about). -/
theorem calcular_demanda_refinement_witness :
    calcular_demanda gBase100 3
      = demanda_spec_amended gBase100.demanda_base gBase100.estado.precio_venta
          gBase100.estado.nivel_calidad 3 :=
  calcular_demanda_refinement gBase100
    ⟨Clima.Templado, 50, [Op.fijar (some 0.54), Op.simular 0 0 Clima.Caluroso 100], rfl⟩
    (by rw [gBase100_base]; norm_num) 3 (by norm_num) (by norm_num)

end Limonade
